import Mathlib

/-!
Verification of the structure-function estimators of the BlackHoleResearch
repository.

Embedded code:

* `sliding_structFunc_opt` — the sliding-window structure-function estimator
  of `GRMHD Variability/plotsf.py` (lines 52–128).
* `structFunc` — the binned (non-sliding) variant of
  `GRMHD Variability/Simulations/detrend_structure_frac.py` (lines 60–93).

Modelling conventions:

* Sample values are exact rationals (`ℚ`); float rounding is not modelled.
  Square roots are irrational in general, so the computable core returns the
  pre-square-root data (the lists of squared differences / the per-bin means)
  and a thin `Real.sqrt` layer on top produces the arrays the Python code
  returns.
* A NumPy float NaN is modelled as `Option.none`.  The only places the
  embedded code can produce NaN are (a) the mean of an empty pair set
  (`np.mean([])`) and (b) the `0/0` arising in the error propagation when a
  bin's structure function is exactly `0`; both are made explicit below.
* A raised Python exception (ValueError from a reduction over an empty
  array, IndexError from an out-of-range list access, ZeroDivisionError from
  `np.arange` with step `0`) is modelled by the whole call returning `none`.
-/

/-- `np.mean`: sum divided by length.  (NumPy's mean of an empty array is
NaN; the embedding returns `0` in that case and every theorem below that
depends on a mean carries a nonemptiness hypothesis instead.) -/
def npMean (l : List ℚ) : ℚ := l.sum / l.length

/-- `np.sort`: sort into nondecreasing order. -/
def npSort (l : List ℚ) : List ℚ := List.insertionSort (· ≤ ·) l

/-- `np.diff`: consecutive differences `l[i+1] - l[i]`. -/
def npDiff (l : List ℚ) : List ℚ := l.zipWith (fun a b => b - a) l.tail

/-- `np.min` / `np.amin` as a reduction; `none` models the ValueError raised
on an empty array. -/
def npMin : List ℚ → Option ℚ
  | [] => none
  | x :: xs =>
    match npMin xs with
    | none => some x
    | some m => some (min x m)

/-- `np.max` / `np.amax` as a reduction; `none` models the ValueError raised
on an empty array. -/
def npMax : List ℚ → Option ℚ
  | [] => none
  | x :: xs =>
    match npMax xs with
    | none => some x
    | some m => some (max x m)

/-- `np.arange(0, stop, step)` for a nonzero `step`: the values `k * step`
for `k = 0, 1, …, ⌈stop/step⌉ - 1`. -/
def npArange (stop step : ℚ) : List ℚ :=
  (List.range (⌈stop / step⌉).toNat).map (fun k : ℕ => (k : ℚ) * step)

/-- Monadic traversal used to model a loop that can raise: the result is
`none` as soon as one element fails, mirroring a Python exception aborting
the whole call. -/
def optionMapList {α β : Type} (f : α → Option β) : List α → Option (List β)
  | [] => some []
  | a :: as =>
    match f a, optionMapList f as with
    | some b, some bs => some (b :: bs)
    | _, _ => none

/-- The index pairs enumerated by `for i in range(N): for j in range(i+1, N)`
in `sliding_structFunc_opt` (plotsf.py lines 111-112), in loop order. -/
def pairIdx (N : ℕ) : List (ℕ × ℕ) :=
  (List.range N).flatMap (fun i => ((List.range N).filter (fun j => i < j)).map (fun j => (i, j)))

/-- The window test of plotsf.py lines 113-114:
`dt - dt0/2 <= |time[j] - time[i]| <= dt + dt0/2`. -/
def contributes (timeA : List ℚ) (dt0 dt : ℚ) (p : ℕ × ℕ) : Bool :=
  decide (dt - dt0 / 2 ≤ |timeA.getD p.2 0 - timeA.getD p.1 0|) &&
  decide (|timeA.getD p.2 0 - timeA.getD p.1 0| ≤ dt + dt0 / 2)

/-- The `diffs` list collected for one target lag `dt` (plotsf.py lines
108-115): for every contributing pair, `(value[j] - value[i])**2`.  The
values are looked up with `List.get?`, so the call degrades to `none`
exactly when Python would raise an IndexError (a `value` array shorter than
`time`). -/
def diffsAt (timeA valueN : List ℚ) (dt0 dt : ℚ) : Option (List ℚ) :=
  optionMapList
    (fun p =>
      match valueN.get? p.2, valueN.get? p.1 with
      | some vj, some vi => some ((vj - vi) ^ 2)
      | _, _ => none)
    ((pairIdx timeA.length).filter (contributes timeA dt0 dt))

/-- Total version of `diffsAt`, valid when `value` is at least as long as
`time` (no IndexError possible). -/
def diffsList (timeA valueN : List ℚ) (dt0 dt : ℚ) : List ℚ :=
  ((pairIdx timeA.length).filter (contributes timeA dt0 dt)).map
    (fun p => (valueN.getD p.2 0 - valueN.getD p.1 0) ^ 2)

/-- `D1 = np.mean(diffs)` guarded by `if diffs:` (plotsf.py lines 117-118);
`none` is the NaN written into the output for an empty pair set
(lines 123-124). -/
def Dval (ds : List ℚ) : Option ℚ :=
  if ds = [] then none else some (npMean ds)

/-- plotsf.py lines 91-92: `dt0` defaults to
`np.min(np.diff(np.sort(time)))`; `none` models the ValueError raised by
`np.min` on an empty difference array (fewer than two samples). -/
def resolveDt0 (timeA : List ℚ) : Option ℚ → Option ℚ
  | some d => some d
  | none => npMin (npDiff (npSort timeA))

/-- plotsf.py lines 94-95: `dt_max` defaults to `np.max(time) - np.min(time)`;
`none` models the ValueError raised on an empty `time`. -/
def resolveDtMax (timeA : List ℚ) : Option ℚ → Option ℚ
  | some m => some m
  | none =>
    match npMax timeA, npMin timeA with
    | some mx, some mn => some (mx - mn)
    | _, _ => none

/-- The data computed by one successful call of `sliding_structFunc_opt`:
the lag grid, the per-lag lists of squared differences (from which the
returned `sqrtD1` and `sigmaD1` arrays are produced), and the normalized
mean error (`ave_error`, present iff an `error` array was passed). -/
structure SFOutput where
  target_dts : List ℚ
  diffsPerBin : List (List ℚ)
  ave_error : Option ℚ

/-- `sliding_structFunc_opt(time, value, error, dt0, dt_max)` of plotsf.py
lines 52-128.  `value` is normalized by its mean (line 88); `error`, when
given, is divided by the mean of the already-normalized `value` (line 103)
and only its mean `ave_error` (line 104) is ever used afterwards.
A `none` result models an uncaught exception: `np.min` over an empty
difference array when `dt0` is defaulted with fewer than two samples,
`np.max`/`np.min` over an empty `time` when `dt_max` is defaulted, the
ZeroDivisionError of `np.arange` when `dt0 = 0`, or an IndexError from a
`value` array shorter than `time`. -/
def sliding_structFunc_opt (timeA value : List ℚ) (error : Option (List ℚ))
    (dt0opt dtmaxopt : Option ℚ) : Option SFOutput :=
  let valueN := value.map (fun x => x / npMean value)
  match resolveDt0 timeA dt0opt with
  | none => none
  | some dt0 =>
    match resolveDtMax timeA dtmaxopt with
    | none => none
    | some dtmax =>
      if dt0 = 0 then none
      else
        let target_dts := npArange (dtmax + dt0) dt0
        let ave_error := error.map (fun e => npMean (e.map (fun x => x / npMean valueN)))
        match optionMapList (fun dt => diffsAt timeA valueN dt0 dt) target_dts with
        | none => none
        | some bins => some ⟨target_dts, bins, ave_error⟩

/-- The `sqrtD1` array returned by plotsf.py (lines 119 and 124):
`√(np.mean(diffs))` per lag, NaN (`none`) for an empty pair set. -/
noncomputable def sqrtD1 (r : SFOutput) : List (Option ℝ) :=
  r.diffsPerBin.map (fun ds => (Dval ds).map (fun d : ℚ => Real.sqrt (d : ℝ)))

/-- The `sigmaD1` array returned by plotsf.py (lines 99, 121-122 and 126),
present iff an `error` array was passed:
`sigmaD = np.sqrt(8 * ave_error**2 * D1 / len(diffs))` and
`sigmaD1[idx] = sigmaD / (2 * np.sqrt(D1))` for a non-empty pair set, NaN
(`none`) otherwise.  When `D1 = 0` the quotient is NumPy's `0/0`, i.e. NaN,
which the `if d = 0` branch makes explicit. -/
noncomputable def sigmaD1 (r : SFOutput) : Option (List (Option ℝ)) :=
  r.ave_error.map (fun a : ℚ =>
    r.diffsPerBin.map (fun ds =>
      match Dval ds with
      | none => none
      | some d =>
        if d = 0 then none
        else some (Real.sqrt (8 * (a : ℝ) ^ 2 * (d : ℝ) / (ds.length : ℝ)) /
          (2 * Real.sqrt (d : ℝ)))))

/-- The triple `(target_dts, sqrtD1, sigmaD1)` actually returned to the
caller of `sliding_structFunc_opt` (plotsf.py line 128). -/
noncomputable def returnedArrays (r : SFOutput) :
    List ℚ × List (Option ℝ) × Option (List (Option ℝ)) :=
  (r.target_dts, sqrtD1 r, sigmaD1 r)

/-- Modelled from the spec: the claimed default window width, "the smallest
positive gap between two (sorted) time samples" — the minimum of the
strictly positive consecutive differences of the sorted time array.  (The
code's actual default, `resolveDt0 _ none`, does not filter out zero gaps.) -/
def smallestPositiveGap (ts : List ℚ) : Option ℚ :=
  npMin ((npDiff (npSort ts)).filter (fun g => decide (0 < g)))

/-- The module-level global `NumberofBins=64` of detrend_structure_frac.py
(line 49), used inside `structFunc` for the `numberPerBin` loop and the
shape of the `sigmaD` broadcast. -/
def NumberofBins : ℕ := 64

/-- The index pairs enumerated by `for ipt in np.arange(Npoints): for jpt in
np.arange(ipt)` in `structFunc` (detrend_structure_frac.py lines 70-71), as
`(jpt, ipt)` with `jpt < ipt`, in loop order. -/
def pairIdxB (N : ℕ) : List (ℕ × ℕ) :=
  (List.range N).flatMap (fun ipt => (List.range ipt).map (fun jpt => (jpt, ipt)))

/-- The `tau` array of `structFunc` (line 72): `time[ipt] - time[jpt]` per
pair, with no absolute value. -/
def structFunc_taus (timeA : List ℚ) : List ℚ :=
  (pairIdxB timeA.length).map (fun p => timeA.getD p.2 0 - timeA.getD p.1 0)

/-- The `diff2` array of `structFunc` (line 74):
`(value[ipt] - value[jpt])^2` per pair, over the normalized values. -/
def structFunc_diff2 (timeA valueN : List ℚ) : List ℚ :=
  (pairIdxB timeA.length).map (fun p => (valueN.getD p.2 0 - valueN.getD p.1 0) ^ 2)

/-- The 1-based bin number assigned by `scipy.stats.binned_statistic` to a
sample `x` for the given bin edges: `np.digitize` semantics (the number of
edges `≤ x`), except that a sample lying exactly on the rightmost edge is
placed in the last bin rather than counted as out of range.  `0` means
below the first edge; `edges.length` means above the last edge. -/
def binnumber (edges : List ℚ) (x : ℚ) : ℕ :=
  let d := edges.countP (fun e => decide (e ≤ x))
  if x = edges.getD (edges.length - 1) 0 then d - 1 else d

/-- The data computed by one successful call of `structFunc`: the
`bin_centers`, the `bin_means` (`none` = NaN for a pair-free bin), the
`numberPerBin` array exactly as the code computes it (counting
`binnumber == index` with a 0-based `index` against scipy's 1-based bin
numbers), and the normalized mean error `aveerror`. -/
structure BinnedSF where
  centers : List ℚ
  Dmeans : List (Option ℚ)
  counts : List ℕ
  ave_err : ℚ

/-- `structFunc(time, value, error, nbins)` of detrend_structure_frac.py
lines 60-93, for `nbins` given as an array of bin edges (the only form the
repository uses: `np.linspace(0, 8, NumberofBins+1)`).

A `none` result models an uncaught exception: fewer than two samples makes
`tau` empty and `np.amax(tau)` (line 77) raise a ValueError; a `value`
array shorter than `time` raises an IndexError in the pair loop; and an
edge array that does not describe exactly `NumberofBins` bins makes the
length-64 `numberPerBin` array fail to broadcast against `D1` (line 88).
(`sigma = np.std(value)` of line 66 is never used and is not modelled.) -/
def structFunc (timeA value error : List ℚ) (nbins : List ℚ) : Option BinnedSF :=
  if timeA.length < 2 then none
  else if value.length < timeA.length then none
  else if nbins.length ≠ NumberofBins + 1 then none
  else
    let m := npMean value
    let errorN := error.map (fun x => x / m)
    let valueN := value.map (fun x => x / m)
    let aveerror := npMean errorN
    let tau := structFunc_taus timeA
    let diff2 := structFunc_diff2 timeA valueN
    let bnums := tau.map (binnumber nbins)
    let bin_means := (List.range (nbins.length - 1)).map (fun k =>
      let sel := ((bnums.zip diff2).filter (fun q => q.1 == k + 1)).map (fun q => q.2)
      if sel = [] then none else some (npMean sel))
    let w := nbins.getD 1 0 - nbins.getD 0 0
    let centers := nbins.tail.map (fun e => e - w / 2)
    let counts := (List.range NumberofBins).map (fun k => (bnums.filter (fun b => b == k)).length)
    some ⟨centers, bin_means, counts, aveerror⟩

/-- The boolean-mask indexing `arr[condition]` used on line 93 of
detrend_structure_frac.py. -/
def maskFilter {α : Type} : List Bool → List α → List α
  | b :: bs, x :: xs => if b then x :: maskFilter bs xs else maskFilter bs xs
  | _, _ => []

/-- The mask `condition = ~np.isnan(D1)` of line 92: `true` exactly on the
bins whose mean is not NaN. -/
def keepMask (b : BinnedSF) : List Bool := b.Dmeans.map Option.isSome

/-- The unfiltered `np.sqrt(D1)` array of `structFunc` (line 93):
the square root of each bin mean, NaN (`none`) for a pair-free bin. -/
noncomputable def binned_sqrtD1 (b : BinnedSF) : List (Option ℝ) :=
  b.Dmeans.map (Option.map (fun d : ℚ => Real.sqrt (d : ℝ)))

/-- The `sigmaD` formula of line 88 applied to one bin:
`np.sqrt(8.*aveerror*aveerror*D1/(numberPerBin+1))`. -/
noncomputable def sigmaDformula (a d : ℚ) (c : ℕ) : ℝ :=
  Real.sqrt (8 * (a : ℝ) * (a : ℝ) * (d : ℝ) / ((c : ℝ) + 1))

/-- The unfiltered `sigmaSQRTD = sigmaD/2./np.sqrt(D1)` array of line 89:
NaN (`none`) for a pair-free bin, and NumPy's `0/0` NaN (made explicit by
the `if d = 0` branch) when a bin's mean is exactly `0`. -/
noncomputable def binned_sigmaSQRTD (b : BinnedSF) : List (Option ℝ) :=
  (b.Dmeans.zip b.counts).map (fun q =>
    match q.1 with
    | none => none
    | some d =>
      if d = 0 then none
      else some (sigmaDformula b.ave_err d q.2 / 2 / Real.sqrt (d : ℝ)))

/-- First component returned by `structFunc` (line 93):
`bin_centers[condition]`. -/
def structFunc_ret_centers (b : BinnedSF) : List ℚ :=
  maskFilter (keepMask b) b.centers

/-- Second component returned by `structFunc` (line 93):
`np.sqrt(D1[condition])`. -/
noncomputable def structFunc_ret_sqrtD (b : BinnedSF) : List (Option ℝ) :=
  maskFilter (keepMask b) (binned_sqrtD1 b)

/-- Third component returned by `structFunc` (line 93):
`sigmaSQRTD[condition]`. -/
noncomputable def structFunc_ret_sigma (b : BinnedSF) : List (Option ℝ) :=
  maskFilter (keepMask b) (binned_sigmaSQRTD b)

/-- Modelled from the claim: "the number of pairwise lags that fall into
that same bin" — the number of taus whose (1-based) scipy bin number is
`k + 1`, i.e. that lie in the 0-based bin `k`. -/
def sameBinCount (edges : List ℚ) (taus : List ℚ) (k : ℕ) : ℕ :=
  (taus.filter (fun t => binnumber edges t == k + 1)).length

/-- The bin-edge array used by every call site of `structFunc`:
`np.linspace(0, 8, NumberofBins+1)`, i.e. `k · 8/64` for `k = 0, …, 64`. -/
def edges65 : List ℚ :=
  (List.range (NumberofBins + 1)).map (fun k : ℕ => (k : ℚ) * 8 / 64)

/-- The output of the C1 known scenario
`sliding_structFunc_opt([0,1,2,3], [1,2,1,2], dt0=1, dt_max=3)`: lag grid
`[0,1,2,3]` and, per lag, the squared differences of the mean-normalized
values `[2/3, 4/3, 2/3, 4/3]` over the contributing pairs. -/
def C1out : SFOutput := ⟨[0, 1, 2, 3], [[], [4/9, 4/9, 4/9], [0, 0], [4/9]], none⟩

/-- The output of the degenerate two-point scenario
`sliding_structFunc_opt([0,1], [1,1], error=[1/10,1/10])` of claim C8. -/
def C8out : SFOutput := ⟨[0, 1], [[], [0]], some (1/10)⟩

/-- The output of `sliding_structFunc_opt([0,1], [1,1], error=[1,1])`,
used to witness claim C7 at its empty lag-0 bin. -/
def C7wOut : SFOutput := ⟨[0, 1], [[], [0]], some 1⟩

/-- The output of `sliding_structFunc_opt([0,1], [1,3], error=[5], dt0=1,
dt_max=1)`, used to witness claim C5: the recorded `ave_error` is the raw
mean of the error array. -/
def C5wOut : SFOutput := ⟨[0, 1], [[], [1]], some 5⟩

/-- The output of `sliding_structFunc_opt([0,1,2], [1,2,3], dt0=1, dt_max=2)`,
used to witness claim C6. -/
def C6wOut : SFOutput := ⟨[0, 1, 2], [[], [1/4, 1/4], [1]], none⟩

/-- The output of `structFunc([0,1], [0,2], [1,1], linspace(0,8,65))`: the
single pair has lag `1`, which lands in 0-based bin 8 (scipy binnumber 9),
so `bin_means` is NaN everywhere except index 8 and the code's
`numberPerBin` records the pair at index 9, not 8. -/
def exampleBinned : BinnedSF :=
  ⟨edges65.tail.map (fun e => e - 1/16),
   (List.range 64).map (fun k => if k = 8 then some 4 else none),
   (List.range 64).map (fun k => if k = 9 then 1 else 0),
   1⟩

/-- The output of `sliding_structFunc_opt([0,1], [1,1,4])` — a call with
mismatched `time`/`value` lengths that nevertheless returns a result
(normalizing by the mean `2` of the full three-element value array),
used as the counterexample to claim C3. -/
def C3ceOut : SFOutput := ⟨[0, 1], [[], [0]], none⟩

/-- The index involution `(i, j) ↦ (N-1-j, N-1-i)`: the pair `(i, j)` of the
reversed arrays refers to the same two samples as `revPair N (i, j)` of the
original arrays. -/
def revPair (N : ℕ) (p : ℕ × ℕ) : ℕ × ℕ := (N - 1 - p.2, N - 1 - p.1)

/-!  ## General lemmas about the embedded primitives  -/

theorem npMean_singleton (x : ℚ) : npMean [x] = x := by
  simp [npMean]

theorem sum_map_div (l : List ℚ) (c : ℚ) : (l.map (fun x => x / c)).sum = l.sum / c := by
  induction l with
  | nil => simp
  | cons a as ih => simp [ih, add_div]

theorem npMean_map_div (l : List ℚ) (c : ℚ) :
    npMean (l.map (fun x => x / c)) = npMean l / c := by
  simp [npMean, sum_map_div, div_right_comm]

theorem npMean_reverse (l : List ℚ) : npMean l.reverse = npMean l := by
  simp [npMean, List.sum_reverse]

theorem npMin_eq_none_iff {l : List ℚ} : npMin l = none ↔ l = [] := by
  cases l with
  | nil => simp [npMin]
  | cons x xs =>
    simp only [npMin]
    cases npMin xs <;> simp

theorem npMin_mem : ∀ {l : List ℚ} {m : ℚ}, npMin l = some m → m ∈ l
  | [], m, h => by simp [npMin] at h
  | x :: xs, m, h => by
    simp only [npMin] at h
    cases hxs : npMin xs with
    | none => rw [hxs] at h; cases h; exact List.mem_cons_self x xs
    | some m' =>
      rw [hxs] at h
      cases h
      rcases min_choice x m' with h' | h' <;> rw [h']
      · exact List.mem_cons_self x xs
      · exact List.mem_cons_of_mem x (npMin_mem hxs)

theorem npMin_le : ∀ {l : List ℚ} {m : ℚ}, npMin l = some m → ∀ b ∈ l, m ≤ b
  | [], m, h => by simp [npMin] at h
  | x :: xs, m, h => by
    simp only [npMin] at h
    intro b hb
    cases hxs : npMin xs with
    | none =>
      rw [hxs] at h; cases h
      rcases List.mem_cons.mp hb with rfl | hb'
      · exact le_refl b
      · exact absurd (npMin_eq_none_iff.mp hxs ▸ hb') (List.not_mem_nil b)
    | some m' =>
      rw [hxs] at h
      cases h
      rcases List.mem_cons.mp hb with rfl | hb'
      · exact min_le_left _ _
      · exact le_trans (min_le_right _ _) (npMin_le hxs b hb')

theorem npMin_eq_some_of {l : List ℚ} {m : ℚ} (hm : m ∈ l) (hle : ∀ b ∈ l, m ≤ b) :
    npMin l = some m := by
  cases hmin : npMin l with
  | none => exact absurd (npMin_eq_none_iff.mp hmin ▸ hm) (List.not_mem_nil m)
  | some m' =>
    have h1 : m' ≤ m := npMin_le hmin m hm
    have h2 : m ≤ m' := hle m' (npMin_mem hmin)
    rw [le_antisymm h1 h2]

theorem npMax_eq_none_iff {l : List ℚ} : npMax l = none ↔ l = [] := by
  cases l with
  | nil => simp [npMax]
  | cons x xs =>
    simp only [npMax]
    cases npMax xs <;> simp

theorem npMax_mem : ∀ {l : List ℚ} {m : ℚ}, npMax l = some m → m ∈ l
  | [], m, h => by simp [npMax] at h
  | x :: xs, m, h => by
    simp only [npMax] at h
    cases hxs : npMax xs with
    | none => rw [hxs] at h; cases h; exact List.mem_cons_self x xs
    | some m' =>
      rw [hxs] at h
      cases h
      rcases max_choice x m' with h' | h' <;> rw [h']
      · exact List.mem_cons_self x xs
      · exact List.mem_cons_of_mem x (npMax_mem hxs)

theorem npMax_ge : ∀ {l : List ℚ} {m : ℚ}, npMax l = some m → ∀ b ∈ l, b ≤ m
  | [], m, h => by simp [npMax] at h
  | x :: xs, m, h => by
    simp only [npMax] at h
    intro b hb
    cases hxs : npMax xs with
    | none =>
      rw [hxs] at h; cases h
      rcases List.mem_cons.mp hb with rfl | hb'
      · exact le_refl b
      · exact absurd (npMax_eq_none_iff.mp hxs ▸ hb') (List.not_mem_nil b)
    | some m' =>
      rw [hxs] at h
      cases h
      rcases List.mem_cons.mp hb with rfl | hb'
      · exact le_max_left _ _
      · exact le_trans (npMax_ge hxs b hb') (le_max_right _ _)

theorem npMax_eq_some_of {l : List ℚ} {m : ℚ} (hm : m ∈ l) (hge : ∀ b ∈ l, b ≤ m) :
    npMax l = some m := by
  cases hmax : npMax l with
  | none => exact absurd (npMax_eq_none_iff.mp hmax ▸ hm) (List.not_mem_nil m)
  | some m' =>
    have h1 : m ≤ m' := npMax_ge hmax m hm
    have h2 : m' ≤ m := hge m' (npMax_mem hmax)
    rw [le_antisymm h2 h1]

theorem optionMapList_some_map {α β : Type} {f : α → Option β} {g : α → β} :
    ∀ {l : List α}, (∀ a ∈ l, f a = some (g a)) → optionMapList f l = some (l.map g)
  | [], _ => rfl
  | a :: as, h => by
    have ha := h a (List.mem_cons_self a as)
    have hrec := optionMapList_some_map (fun b hb => h b (List.mem_cons_of_mem a hb))
    simp [optionMapList, ha, hrec]

theorem optionMapList_length {α β : Type} {f : α → Option β} :
    ∀ {l : List α} {l' : List β}, optionMapList f l = some l' → l'.length = l.length
  | [], l', h => by
    simp only [optionMapList] at h
    cases h
    rfl
  | a :: as, l', h => by
    simp only [optionMapList] at h
    cases hfa : f a with
    | none => rw [hfa] at h; cases h
    | some b =>
      rw [hfa] at h
      cases hrec : optionMapList f as with
      | none => rw [hrec] at h; cases h
      | some bs =>
        rw [hrec] at h
        cases h
        simp [optionMapList_length hrec]

theorem optionMapList_get? {α β : Type} {f : α → Option β} :
    ∀ {l : List α} {l' : List β}, optionMapList f l = some l' →
      ∀ i a, l.get? i = some a → l'.get? i = f a
  | [], l', h => by intro i a ha; simp at ha
  | a :: as, l', h => by
    simp only [optionMapList] at h
    cases hfa : f a with
    | none => rw [hfa] at h; cases h
    | some b =>
      rw [hfa] at h
      cases hrec : optionMapList f as with
      | none => rw [hrec] at h; cases h
      | some bs =>
        rw [hrec] at h
        cases h
        intro i c hc
        cases i with
        | zero =>
          cases hc
          simp [hfa]
        | succ n =>
          simp only [List.get?_cons_succ] at hc ⊢
          exact optionMapList_get? hrec n c hc

theorem pairIdx_mem {N i j : ℕ} : (i, j) ∈ pairIdx N ↔ i < j ∧ j < N := by
  simp only [pairIdx, List.mem_flatMap, List.mem_map, List.mem_filter, List.mem_range,
    decide_eq_true_eq, Prod.mk.injEq]
  constructor
  · rintro ⟨a, _, b, ⟨hb, hab⟩, rfl, rfl⟩
    exact ⟨hab, hb⟩
  · rintro ⟨hij, hj⟩
    exact ⟨i, lt_trans hij hj, j, ⟨hj, hij⟩, rfl, rfl⟩

theorem diffsAt_eq_some {timeA valueN : List ℚ} (dt0 dt : ℚ)
    (hlen : timeA.length ≤ valueN.length) :
    diffsAt timeA valueN dt0 dt = some (diffsList timeA valueN dt0 dt) := by
  apply optionMapList_some_map
  intro p hp
  have hmem := (List.mem_filter.mp hp).1
  rcases p with ⟨i, j⟩
  have hij := pairIdx_mem.mp hmem
  have hj : j < valueN.length := lt_of_lt_of_le hij.2 hlen
  have hi : i < valueN.length := lt_of_lt_of_le (lt_trans hij.1 hij.2) hlen
  have hj' : valueN[j]? = some valueN[j] := List.getElem?_eq_getElem hj
  have hi' : valueN[i]? = some valueN[i] := List.getElem?_eq_getElem hi
  simp [List.get?_eq_getElem?, hj', hi', List.getD_eq_getElem?_getD]

theorem slide_some_elim {timeA value : List ℚ} {error : Option (List ℚ)}
    {dt0opt dtmaxopt : Option ℚ} {r : SFOutput}
    (h : sliding_structFunc_opt timeA value error dt0opt dtmaxopt = some r) :
    ∃ dt0 dtmax, resolveDt0 timeA dt0opt = some dt0 ∧
      resolveDtMax timeA dtmaxopt = some dtmax ∧ dt0 ≠ 0 ∧
      r.target_dts = npArange (dtmax + dt0) dt0 ∧
      optionMapList (fun dt => diffsAt timeA (value.map (fun x => x / npMean value)) dt0 dt)
        (npArange (dtmax + dt0) dt0) = some r.diffsPerBin ∧
      r.ave_error = error.map (fun e =>
        npMean (e.map (fun x => x / npMean (value.map (fun y => y / npMean value))))) := by
  simp only [sliding_structFunc_opt] at h
  cases h0 : resolveDt0 timeA dt0opt with
  | none => simp only [h0] at h; cases h
  | some dt0 =>
    simp only [h0] at h
    cases hm : resolveDtMax timeA dtmaxopt with
    | none => simp only [hm] at h; cases h
    | some dtmax =>
      simp only [hm] at h
      by_cases hz : dt0 = 0
      · rw [if_pos hz] at h; cases h
      · rw [if_neg hz] at h
        cases hb : optionMapList
            (fun dt => diffsAt timeA (value.map (fun x => x / npMean value)) dt0 dt)
            (npArange (dtmax + dt0) dt0) with
        | none => rw [hb] at h; cases h
        | some bins =>
          rw [hb] at h
          cases h
          exact ⟨dt0, dtmax, rfl, rfl, hz, rfl, hb, rfl⟩

/-- C1: for `sliding_structFunc_opt(time=[0,1,2,3], value=[1,2,1,2],
windowWidth=1, maxLag=3)` with no error array, the lag grid is `[0,1,2,3]`;
at lag 1 the contributing pairs are (0,1),(1,2),(2,3), each contributing the
squared difference `4/9` of the mean-normalized values, so `D(1)`, their
mean, is `4/9`, and the reported `√D(1)` is `2/3`. -/
theorem claim_C1_known_scenario :
    sliding_structFunc_opt [0, 1, 2, 3] [1, 2, 1, 2] none (some 1) (some 3) = some C1out ∧
    C1out.target_dts = [0, 1, 2, 3] ∧
    C1out.diffsPerBin.get? 1 = some [4/9, 4/9, 4/9] ∧
    Dval [4/9, 4/9, 4/9] = some (4/9) ∧
    (sqrtD1 C1out).get? 1 = some (some (2/3)) := by
  have h49 : Dval [4/9, 4/9, 4/9] = some (4/9) := by
    rw [Dval, if_neg (by simp)]
    norm_num [npMean]
  refine ⟨?_, rfl, rfl, h49, ?_⟩
  · norm_num [sliding_structFunc_opt, resolveDt0, resolveDtMax, npArange, npMean, C1out,
      show Int.toNat 4 = 4 from rfl, List.flatMap_cons, List.flatMap_nil,
      show List.range 4 = [0, 1, 2, 3] from by decide,
      diffsAt, optionMapList, contributes, List.getD,
      show pairIdx 4 = [(0,1), (0,2), (0,3), (1,2), (1,3), (2,3)] from by decide]
  · have hstep : (sqrtD1 C1out).get? 1
        = some ((Dval [4/9, 4/9, 4/9]).map (fun d : ℚ => Real.sqrt (d : ℝ))) := rfl
    rw [hstep, h49, Option.map_some']
    rw [show ((4/9 : ℚ) : ℝ) = (2/3 : ℝ) ^ 2 by norm_num,
      Real.sqrt_sq (by norm_num : (0:ℝ) ≤ 2/3)]

/-- C8: the two-point series `time=[0,1]`, `value=[1,1]` with an error array
yields `D(1) = 0` and `√D(1) = 0`, and the uncertainty computation — whose
divisor `2·√D` is `0` — terminates with NumPy's `0/0` NaN for that bin
rather than raising: the call returns normally with `sigmaD1 = [NaN, NaN]`. -/
theorem claim_C8_zero_sf_degenerate :
    sliding_structFunc_opt [0, 1] [1, 1] (some [1/10, 1/10]) none none = some C8out ∧
    C8out.diffsPerBin.get? 1 = some [0] ∧
    Dval [0] = some 0 ∧
    (sqrtD1 C8out).get? 1 = some (some 0) ∧
    sigmaD1 C8out = some [none, none] := by
  have h0 : Dval [0] = some 0 := by
    rw [Dval, if_neg (by simp)]
    norm_num [npMean]
  refine ⟨?_, rfl, h0, ?_, ?_⟩
  · norm_num [sliding_structFunc_opt, resolveDt0, resolveDtMax, npSort, List.insertionSort,
      List.orderedInsert, npDiff, List.zipWith_cons_cons, npMin, npMax, min_def, max_def,
      npArange, npMean, C8out,
      show Int.toNat 2 = 2 from rfl, List.flatMap_cons, List.flatMap_nil,
      show List.range 2 = [0, 1] from by decide,
      diffsAt, optionMapList, contributes, List.getD,
      show pairIdx 2 = [(0, 1)] from by decide]
  · have hstep : (sqrtD1 C8out).get? 1
        = some ((Dval [0]).map (fun d : ℚ => Real.sqrt (d : ℝ))) := rfl
    rw [hstep, h0, Option.map_some']
    norm_num
  · have hstep : sigmaD1 C8out = some
        [(match Dval [] with
          | none => none
          | some d => if d = 0 then none
            else some (Real.sqrt (8 * ((1/10 : ℚ) : ℝ) ^ 2 * (d : ℝ) / (([] : List ℚ).length : ℝ)) /
              (2 * Real.sqrt (d : ℝ)))),
         (match Dval [0] with
          | none => none
          | some d => if d = 0 then none
            else some (Real.sqrt (8 * ((1/10 : ℚ) : ℝ) ^ 2 * (d : ℝ) / (([0] : List ℚ).length : ℝ)) /
              (2 * Real.sqrt (d : ℝ))))] := rfl
    rw [hstep, h0]
    simp [Dval]

theorem npDiff_pos_of_sorted_lt :
    ∀ {l : List ℚ}, List.Sorted (· < ·) l → ∀ g ∈ npDiff l, 0 < g
  | [], _, g, hg => by simp [npDiff] at hg
  | [a], _, g, hg => by simp [npDiff] at hg
  | a :: b :: rest, hs, g, hg => by
    simp only [npDiff, List.tail_cons, List.zipWith_cons_cons] at hg
    rcases List.mem_cons.mp hg with rfl | hg'
    · have hab : a < b := (List.sorted_cons.mp hs).1 b (List.mem_cons_self _ _)
      linarith
    · have hs' : List.Sorted (· < ·) (b :: rest) := (List.sorted_cons.mp hs).2
      exact npDiff_pos_of_sorted_lt hs' g (by rw [npDiff, List.tail_cons]; exact hg')

/-- C3 counterexample: the call
`sliding_structFunc_opt(time=[0,1], value=[1,1,4])` has mismatched
`time`/`value` lengths — an invalid input per the claim — yet it does not
fail with an InputError (or at all): it returns a normal result, so the
claim that every invalid call fails synchronously is false. -/
theorem claim_C3_counterexample :
    ([1, 1, 4] : List ℚ).length ≠ ([0, 1] : List ℚ).length ∧
    sliding_structFunc_opt [0, 1] [1, 1, 4] none none none = some C3ceOut := by
  refine ⟨by simp, ?_⟩
  norm_num [sliding_structFunc_opt, resolveDt0, resolveDtMax, npSort, List.insertionSort,
    List.orderedInsert, npDiff, List.zipWith_cons_cons, npMin, npMax, min_def, max_def,
    npArange, npMean, C3ceOut,
    show Int.toNat 2 = 2 from rfl, List.flatMap_cons, List.flatMap_nil,
    show List.range 2 = [0, 1] from by decide,
    diffsAt, optionMapList, contributes, List.getD,
    show pairIdx 2 = [(0, 1)] from by decide]

/-- C3 amended: the estimator performs no input validation and has no
InputError.  What does hold: a call with fewer than two samples and a
defaulted `windowWidth` fails (with an uncaught NumPy ValueError from
`np.min` of an empty difference array, modelled as `none`) — while a
`value` array longer than `time` is silently accepted, and only a shorter
one can raise an IndexError. -/
theorem claim_C3_amended (timeA value : List ℚ) (error : Option (List ℚ))
    (dtmaxopt : Option ℚ) (h : timeA.length < 2) :
    sliding_structFunc_opt timeA value error none dtmaxopt = none := by
  have hlen : (npSort timeA).length < 2 := by
    rw [npSort, List.length_insertionSort]
    exact h
  have hdiff : npDiff (npSort timeA) = [] := by
    cases hs : npSort timeA with
    | nil => simp [npDiff]
    | cons a tl =>
      cases tl with
      | nil => simp [npDiff]
      | cons b tl2 =>
        rw [hs] at hlen
        simp at hlen
        omega
  have hres : resolveDt0 timeA none = none := by
    show npMin (npDiff (npSort timeA)) = none
    rw [hdiff]
    rfl
  simp only [sliding_structFunc_opt, hres]

/-- Witness for the amended C3 at the concrete input `time=[5]`. -/
theorem claim_C3_amended_witness :
    ([5] : List ℚ).length < 2 ∧
    sliding_structFunc_opt [5] [1, 2] none none (some 3) = none :=
  ⟨by simp, claim_C3_amended [5] [1, 2] none (some 3) (by simp)⟩

/-- C4 counterexample: for `time=[0,0,1]`, which contains a tied pair of
time values, the code's default window width
`np.min(np.diff(np.sort(time)))` is `0` — not the smallest *positive* gap
`1` claimed — and the call then dies in `np.arange` (step `0`), returning
no lag grid at all. -/
theorem claim_C4_counterexample :
    resolveDt0 [0, 0, 1] none = some 0 ∧
    smallestPositiveGap [0, 0, 1] = some 1 ∧
    resolveDt0 [0, 0, 1] none ≠ smallestPositiveGap [0, 0, 1] ∧
    sliding_structFunc_opt [0, 0, 1] [1, 1, 1] none none (some 1) = none := by
  have h1 : resolveDt0 [0, 0, 1] none = some 0 := by
    show npMin (npDiff (npSort [0, 0, 1])) = some 0
    norm_num [npSort, List.insertionSort, List.orderedInsert, npDiff,
      List.zipWith_cons_cons, npMin, min_def]
  have h2 : smallestPositiveGap [0, 0, 1] = some 1 := by
    rw [smallestPositiveGap]
    norm_num [npSort, List.insertionSort, List.orderedInsert, npDiff,
      List.zipWith_cons_cons, npMin, min_def, List.filter]
  refine ⟨h1, h2, by rw [h1, h2]; simp, ?_⟩
  simp only [sliding_structFunc_opt, h1]
  norm_num [resolveDtMax]

/-- C4 amended: when the time samples are pairwise distinct, the default
window width `np.min(np.diff(np.sort(time)))` does equal the smallest
positive gap between two sorted time samples; with tied time values the
gaps are not all positive and the default is `0`, not the smallest positive
gap (see the counterexample). -/
theorem claim_C4_amended (timeA : List ℚ) (hlen : 2 ≤ timeA.length)
    (hnd : timeA.Nodup) : resolveDt0 timeA none = smallestPositiveGap timeA := by
  have hperm : List.Perm (npSort timeA) timeA := List.perm_insertionSort _ _
  have hsorted : List.Sorted (· ≤ ·) (npSort timeA) := List.sorted_insertionSort _ _
  have hnodup : (npSort timeA).Nodup := (hperm.nodup_iff).mpr hnd
  have hlt : List.Sorted (· < ·) (npSort timeA) :=
    (hsorted.and hnodup).imp (fun h => lt_of_le_of_ne h.1 h.2)
  have hpos := npDiff_pos_of_sorted_lt hlt
  show npMin (npDiff (npSort timeA)) = smallestPositiveGap timeA
  rw [smallestPositiveGap,
    List.filter_eq_self.mpr (fun g hg => decide_eq_true (hpos g hg))]

/-- Witness for the amended C4 at the concrete input `time=[0,1,3]`. -/
theorem claim_C4_amended_witness :
    2 ≤ ([0, 1, 3] : List ℚ).length ∧ ([0, 1, 3] : List ℚ).Nodup ∧
    resolveDt0 [0, 1, 3] none = smallestPositiveGap [0, 1, 3] :=
  ⟨by simp, by norm_num, claim_C4_amended [0, 1, 3] (by simp) (by norm_num)⟩

/-- C5: when an error array is supplied, it is divided by the mean of the
*already normalized* value array (plotsf.py line 103 runs after line 88).
That mean is `1` whenever the raw mean is nonzero, so the recorded
`ave_error` is just the raw mean of the error array — whereas dividing by
the mean of the raw input values would have scaled it by `npMean value`. -/
theorem claim_C5_error_normalization (timeA value err : List ℚ)
    (dt0opt dtmaxopt : Option ℚ) (r : SFOutput)
    (hcall : sliding_structFunc_opt timeA value (some err) dt0opt dtmaxopt = some r)
    (hne : value ≠ []) (hm : npMean value ≠ 0) :
    npMean (value.map (fun y => y / npMean value)) = 1 ∧
    r.ave_error = some (npMean err) ∧
    npMean (err.map (fun x => x / npMean value)) = npMean err / npMean value := by
  have hone : npMean (value.map (fun y => y / npMean value)) = 1 := by
    rw [npMean_map_div, div_self hm]
  obtain ⟨dt0, dtmax, _, _, _, _, _, hav⟩ := slide_some_elim hcall
  refine ⟨hone, ?_, npMean_map_div err (npMean value)⟩
  rw [hav]
  simp only [Option.map_some', hone, div_one, List.map_id', Option.some.injEq]

/-- Witness for C5 at `time=[0,1]`, `value=[1,3]`, `error=[5]`: the raw value
mean is `2 ≠ 1`, the recorded `ave_error` is `5` (the raw error mean), while
normalizing by the raw mean would have produced `5/2`. -/
theorem claim_C5_witness :
    sliding_structFunc_opt [0, 1] [1, 3] (some [5]) (some 1) (some 1) = some C5wOut ∧
    (npMean ([1, 3].map (fun y => y / npMean [1, 3])) = 1 ∧
     C5wOut.ave_error = some (npMean [5]) ∧
     npMean ([5].map (fun x => x / npMean [1, 3])) = npMean [5] / npMean [1, 3]) ∧
    npMean [5] / npMean [1, 3] ≠ npMean [5] := by
  have hcall : sliding_structFunc_opt [0, 1] [1, 3] (some [5]) (some 1) (some 1)
      = some C5wOut := by
    norm_num [sliding_structFunc_opt, resolveDt0, resolveDtMax, npArange, npMean, C5wOut,
      show Int.toNat 2 = 2 from rfl, List.flatMap_cons, List.flatMap_nil,
      show List.range 2 = [0, 1] from by decide,
      diffsAt, optionMapList, contributes, List.getD,
      show pairIdx 2 = [(0, 1)] from by decide]
  exact ⟨hcall,
    claim_C5_error_normalization [0, 1] [1, 3] [5] (some 1) (some 1) C5wOut hcall
      (by simp) (by norm_num [npMean]),
    by norm_num [npMean]⟩

theorem sorted_mul_range (n : ℕ) (d : ℚ) (hd : 0 ≤ d) :
    List.Sorted (· ≤ ·) ((List.range n).map (fun k : ℕ => (k : ℚ) * d)) := by
  refine List.pairwise_iff_getElem.mpr ?_
  intro i j hi hj hij
  simp only [List.getElem_map, List.getElem_range]
  exact mul_le_mul_of_nonneg_right (by exact_mod_cast le_of_lt hij) hd

/-- C6: whenever the (resolved) window width is positive and the (resolved)
maximum lag is nonnegative, the returned lag grid is exactly
`[k * windowWidth for k in range(ceil((maxLag + windowWidth)/windowWidth))]`
— the `np.arange(0, maxLag + windowWidth, windowWidth)` grid — hence it is
non-decreasing and starts at `0`. -/
theorem claim_C6_lag_grid (timeA value : List ℚ) (error : Option (List ℚ))
    (dt0opt dtmaxopt : Option ℚ) (r : SFOutput) (dt0 dtmax : ℚ)
    (hcall : sliding_structFunc_opt timeA value error dt0opt dtmaxopt = some r)
    (hd0 : resolveDt0 timeA dt0opt = some dt0) (hpos : 0 < dt0)
    (hdm : resolveDtMax timeA dtmaxopt = some dtmax)
    (hN : 2 ≤ timeA.length)
    (hmx : ∀ m, dtmaxopt = some m → 0 ≤ m) :
    r.target_dts = (List.range (⌈(dtmax + dt0) / dt0⌉).toNat).map (fun k : ℕ => (k : ℚ) * dt0) ∧
    List.Sorted (· ≤ ·) r.target_dts ∧
    r.target_dts.head? = some 0 := by
  obtain ⟨dt0', dtmax', hd0', hdm', hz, htd, hbins, hav⟩ := slide_some_elim hcall
  rw [hd0] at hd0'
  rw [hdm] at hdm'
  cases hd0'
  cases hdm'
  have hdmax : 0 ≤ dtmax := by
    cases hopt : dtmaxopt with
    | some m =>
      have heq : resolveDtMax timeA (some m) = some m := rfl
      rw [hopt, heq] at hdm
      cases hdm
      exact hmx _ hopt
    | none =>
      rw [hopt] at hdm
      simp only [resolveDtMax] at hdm
      cases hmax : npMax timeA with
      | none => rw [hmax] at hdm; cases hdm
      | some mx =>
        cases hmin : npMin timeA with
        | none => rw [hmax, hmin] at hdm; cases hdm
        | some mn =>
          rw [hmax, hmin] at hdm
          cases hdm
          have h1 : mn ≤ mx := npMin_le hmin mx (npMax_mem hmax)
          linarith
  have hstop : 0 < (dtmax + dt0) / dt0 := div_pos (by linarith) hpos
  have hceil : 0 < ⌈(dtmax + dt0) / dt0⌉ := Int.ceil_pos.mpr hstop
  have hn1 : 1 ≤ (⌈(dtmax + dt0) / dt0⌉).toNat := Int.lt_toNat.mpr hceil
  refine ⟨by rw [htd, npArange], ?_, ?_⟩
  · rw [htd, npArange]
    exact sorted_mul_range _ dt0 (le_of_lt hpos)
  · rw [htd, npArange]
    obtain ⟨k, hk⟩ := Nat.exists_eq_add_of_le hn1
    rw [hk, add_comm 1 k, List.range_succ_eq_map]
    simp

/-- Witness for C6 at `time=[0,1,2]`, `value=[1,2,3]`, `windowWidth=1`,
`maxLag=2`: the grid is `[0,1,2]`. -/
theorem claim_C6_witness :
    sliding_structFunc_opt [0, 1, 2] [1, 2, 3] none (some 1) (some 2) = some C6wOut ∧
    (C6wOut.target_dts
        = (List.range (⌈((2 : ℚ) + 1) / 1⌉).toNat).map (fun k : ℕ => (k : ℚ) * 1) ∧
     List.Sorted (· ≤ ·) C6wOut.target_dts ∧
     C6wOut.target_dts.head? = some 0) := by
  have hcall : sliding_structFunc_opt [0, 1, 2] [1, 2, 3] none (some 1) (some 2)
      = some C6wOut := by
    norm_num [sliding_structFunc_opt, resolveDt0, resolveDtMax, npArange, npMean, C6wOut,
      show Int.toNat 3 = 3 from rfl, List.flatMap_cons, List.flatMap_nil,
      show List.range 3 = [0, 1, 2] from by decide,
      diffsAt, optionMapList, contributes, List.getD,
      show pairIdx 3 = [(0, 1), (0, 2), (1, 2)] from by decide]
  refine ⟨hcall, claim_C6_lag_grid [0, 1, 2] [1, 2, 3] none (some 1) (some 2) C6wOut 1 2
    hcall rfl (by norm_num) rfl (by simp) ?_⟩
  intro m hm
  cases hm
  norm_num

/-- C7: a lag bin for which no pair `(i, j)`, `i < j`, has `|t_j - t_i|`
inside `[Δτ_k - w/2, Δτ_k + w/2]` gets an empty `diffs` list, so the
returned `√D` entry at that index is NaN (`none`) — not `0`, not an error —
the uncertainty entry is NaN as well when an error array was supplied, and
the bin is kept in place: all returned arrays have the full grid length. -/
theorem claim_C7_empty_bins_nan (timeA value : List ℚ) (error : Option (List ℚ))
    (dt0opt dtmaxopt : Option ℚ) (r : SFOutput) (dt0 dtk : ℚ) (idx : ℕ)
    (hcall : sliding_structFunc_opt timeA value error dt0opt dtmaxopt = some r)
    (hd0 : resolveDt0 timeA dt0opt = some dt0)
    (hidx : r.target_dts.get? idx = some dtk)
    (hempty : ∀ i, i < timeA.length → ∀ j, j < timeA.length → i < j →
      ¬(dtk - dt0 / 2 ≤ |timeA.getD j 0 - timeA.getD i 0| ∧
        |timeA.getD j 0 - timeA.getD i 0| ≤ dtk + dt0 / 2)) :
    r.diffsPerBin.get? idx = some [] ∧
    (sqrtD1 r).get? idx = some none ∧
    (∀ s, sigmaD1 r = some s → s.get? idx = some none) ∧
    (sqrtD1 r).length = r.target_dts.length ∧
    (∀ s, sigmaD1 r = some s → s.length = r.target_dts.length) := by
  obtain ⟨dt0', dtmax, hd0', hdm, hz, htd, hbins, hav⟩ := slide_some_elim hcall
  rw [hd0] at hd0'
  cases hd0'
  have hgrid : (npArange (dtmax + dt0) dt0).get? idx = some dtk := by
    rw [← htd]; exact hidx
  have hbin := optionMapList_get? hbins idx dtk hgrid
  have hfilter : (pairIdx timeA.length).filter (contributes timeA dt0 dtk) = [] := by
    rw [List.filter_eq_nil_iff]
    rintro ⟨i, j⟩ hp
    have hij := pairIdx_mem.mp hp
    intro hc
    simp only [contributes, Bool.and_eq_true, decide_eq_true_eq] at hc
    exact hempty i (lt_trans hij.1 hij.2) j hij.2 hij.1 hc
  have hds : diffsAt timeA (value.map (fun x => x / npMean value)) dt0 dtk = some [] := by
    rw [diffsAt, hfilter]
    rfl
  have hidxbin : r.diffsPerBin.get? idx = some [] := by rw [hbin, hds]
  have hlenbins : r.diffsPerBin.length = r.target_dts.length := by
    rw [htd]
    exact optionMapList_length hbins
  refine ⟨hidxbin, ?_, ?_, ?_, ?_⟩
  · rw [sqrtD1, List.get?_map, hidxbin]
    simp [Dval]
  · intro s hs
    cases hae : r.ave_error with
    | none =>
      simp only [sigmaD1, hae, Option.map_none'] at hs
      cases hs
    | some a =>
      simp only [sigmaD1, hae, Option.map_some', Option.some.injEq] at hs
      rw [← hs, List.get?_map, hidxbin]
      simp [Dval]
  · rw [sqrtD1, List.length_map]
    exact hlenbins
  · intro s hs
    cases hae : r.ave_error with
    | none =>
      simp only [sigmaD1, hae, Option.map_none'] at hs
      cases hs
    | some a =>
      simp only [sigmaD1, hae, Option.map_some', Option.some.injEq] at hs
      rw [← hs, List.length_map]
      exact hlenbins

/-- Witness for C7 at `time=[0,1]`, `value=[1,1]`, `error=[1,1]`: the lag-0
bin has no pair within `[-1/2, 1/2]`, and its `√D` and `σ` entries are NaN
while all arrays keep length 2. -/
theorem claim_C7_witness :
    sliding_structFunc_opt [0, 1] [1, 1] (some [1, 1]) none none = some C7wOut ∧
    C7wOut.target_dts.get? 0 = some 0 ∧
    (C7wOut.diffsPerBin.get? 0 = some [] ∧
     (sqrtD1 C7wOut).get? 0 = some none ∧
     (∀ s, sigmaD1 C7wOut = some s → s.get? 0 = some none) ∧
     (sqrtD1 C7wOut).length = C7wOut.target_dts.length ∧
     (∀ s, sigmaD1 C7wOut = some s → s.length = C7wOut.target_dts.length)) := by
  have hcall : sliding_structFunc_opt [0, 1] [1, 1] (some [1, 1]) none none
      = some C7wOut := by
    norm_num [sliding_structFunc_opt, resolveDt0, resolveDtMax, npSort, List.insertionSort,
      List.orderedInsert, npDiff, List.zipWith_cons_cons, npMin, npMax, min_def, max_def,
      npArange, npMean, C7wOut,
      show Int.toNat 2 = 2 from rfl,
      show List.range 2 = [0, 1] from by decide,
      diffsAt, optionMapList, contributes, List.getD,
      show pairIdx 2 = [(0, 1)] from by decide]
  refine ⟨hcall, rfl,
    claim_C7_empty_bins_nan [0, 1] [1, 1] (some [1, 1]) none none C7wOut 1 0 0 hcall ?_ rfl ?_⟩
  · show npMin (npDiff (npSort [0, 1])) = some 1
    norm_num [npSort, List.insertionSort, List.orderedInsert, npDiff,
      List.zipWith_cons_cons, npMin]
  · intro i hi j hj hij
    have hi2 : i < 2 := by simpa using hi
    have hj2 : j < 2 := by simpa using hj
    interval_cases i <;> interval_cases j <;>
      first
      | exact absurd hij (by omega)
      | exact show ¬((0:ℚ) - 1/2 ≤ |(1:ℚ) - 0| ∧ |(1:ℚ) - 0| ≤ 0 + 1/2) from by norm_num

theorem getD_reverse (l : List ℚ) (k : ℕ) (hk : k < l.length) :
    l.reverse.getD k 0 = l.getD (l.length - 1 - k) 0 := by
  rw [List.getD_eq_getElem?_getD, List.getD_eq_getElem?_getD, List.getElem?_reverse hk]

theorem npSort_reverse (l : List ℚ) : npSort l.reverse = npSort l := by
  refine List.eq_of_perm_of_sorted ?_ (List.sorted_insertionSort _ _)
    (List.sorted_insertionSort _ _)
  exact (List.perm_insertionSort _ l.reverse).trans
    ((List.reverse_perm l).trans (List.perm_insertionSort _ l).symm)

theorem npMin_reverse (l : List ℚ) : npMin l.reverse = npMin l := by
  cases hmin : npMin l with
  | none =>
    rw [npMin_eq_none_iff.mp hmin]
    rfl
  | some m =>
    exact npMin_eq_some_of (List.mem_reverse.mpr (npMin_mem hmin))
      (fun b hb => npMin_le hmin b (List.mem_reverse.mp hb))

theorem npMax_reverse (l : List ℚ) : npMax l.reverse = npMax l := by
  cases hmax : npMax l with
  | none =>
    rw [npMax_eq_none_iff.mp hmax]
    rfl
  | some m =>
    exact npMax_eq_some_of (List.mem_reverse.mpr (npMax_mem hmax))
      (fun b hb => npMax_ge hmax b (List.mem_reverse.mp hb))

theorem resolveDt0_reverse (timeA : List ℚ) (o : Option ℚ) :
    resolveDt0 timeA.reverse o = resolveDt0 timeA o := by
  cases o with
  | some d => rfl
  | none =>
    show npMin (npDiff (npSort timeA.reverse)) = npMin (npDiff (npSort timeA))
    rw [npSort_reverse]

theorem resolveDtMax_reverse (timeA : List ℚ) (o : Option ℚ) :
    resolveDtMax timeA.reverse o = resolveDtMax timeA o := by
  cases o with
  | some m => rfl
  | none =>
    show (match npMax timeA.reverse, npMin timeA.reverse with
      | some mx, some mn => some (mx - mn)
      | _, _ => none) = _
    rw [npMax_reverse, npMin_reverse]
    rfl

theorem Dval_perm {ds₁ ds₂ : List ℚ} (h : List.Perm ds₁ ds₂) : Dval ds₁ = Dval ds₂ := by
  by_cases h2 : ds₂ = []
  · subst h2
    rw [h.eq_nil]
  · have h1 : ds₁ ≠ [] := fun h1 => h2 ((h1 ▸ h.symm).eq_nil)
    rw [Dval, Dval, if_neg h1, if_neg h2, npMean, npMean, h.sum_eq, h.length_eq]

theorem pairIdx_nodup (N : ℕ) : (pairIdx N).Nodup := by
  rw [pairIdx, List.nodup_flatMap]
  constructor
  · intro i _
    exact List.Nodup.map (fun a b h => congrArg Prod.snd h) ((List.nodup_range N).filter _)
  · refine (List.pairwise_lt_range N).imp ?_
    intro a b hab x hxa hxb
    obtain ⟨ja, _, rfl⟩ := List.mem_map.mp hxa
    obtain ⟨jb, _, hEq⟩ := List.mem_map.mp hxb
    exact absurd (congrArg Prod.fst hEq).symm (Nat.ne_of_lt hab)

theorem pairIdx_reverse_perm (N : ℕ) :
    List.Perm ((pairIdx N).map (revPair N)) (pairIdx N) := by
  apply List.perm_of_nodup_nodup_toFinset_eq
  · apply List.Nodup.map_on ?_ (pairIdx_nodup N)
    rintro ⟨i, j⟩ hij ⟨a, b⟩ hab h
    have h1 := pairIdx_mem.mp hij
    have h2 := pairIdx_mem.mp hab
    simp only [revPair, Prod.mk.injEq] at h ⊢
    omega
  · exact pairIdx_nodup N
  · ext ⟨a, b⟩
    simp only [List.mem_toFinset, List.mem_map]
    constructor
    · rintro ⟨⟨i, j⟩, hp, heq⟩
      have h1 := pairIdx_mem.mp hp
      simp only [revPair, Prod.mk.injEq] at heq
      refine pairIdx_mem.mpr ?_
      omega
    · intro hab
      have h2 := pairIdx_mem.mp hab
      refine ⟨(N - 1 - b, N - 1 - a), pairIdx_mem.mpr (by omega), ?_⟩
      simp only [revPair, Prod.mk.injEq]
      omega

theorem diffsList_reverse_perm (timeA valueN : List ℚ) (dt0 dt : ℚ)
    (hlen : valueN.length = timeA.length) :
    List.Perm (diffsList timeA.reverse valueN.reverse dt0 dt)
      (diffsList timeA valueN dt0 dt) := by
  rw [diffsList, diffsList, List.length_reverse]
  have hC : ∀ p ∈ pairIdx timeA.length, contributes timeA.reverse dt0 dt p
      = contributes timeA dt0 dt (revPair timeA.length p) := by
    rintro ⟨i, j⟩ hp
    have hij := pairIdx_mem.mp hp
    have hi : i < timeA.length := lt_trans hij.1 hij.2
    have hj : j < timeA.length := hij.2
    simp only [contributes, revPair]
    rw [getD_reverse timeA j hj, getD_reverse timeA i hi, abs_sub_comm]
  have hf : ∀ p ∈ (pairIdx timeA.length).filter
      (fun p => contributes timeA dt0 dt (revPair timeA.length p)),
      (valueN.reverse.getD p.2 0 - valueN.reverse.getD p.1 0) ^ 2
        = ((fun q : ℕ × ℕ => (valueN.getD q.2 0 - valueN.getD q.1 0) ^ 2)
            (revPair timeA.length p)) := by
    rintro ⟨i, j⟩ hp
    have hij := pairIdx_mem.mp (List.mem_filter.mp hp).1
    have hi : i < valueN.length := by rw [hlen]; exact lt_trans hij.1 hij.2
    have hj : j < valueN.length := by rw [hlen]; exact hij.2
    simp only [revPair]
    rw [getD_reverse valueN j hj, getD_reverse valueN i hi, hlen]
    ring
  rw [List.filter_congr hC, List.map_congr_left hf]
  rw [show (fun p => (fun q : ℕ × ℕ => (valueN.getD q.2 0 - valueN.getD q.1 0) ^ 2)
      (revPair timeA.length p))
    = ((fun q : ℕ × ℕ => (valueN.getD q.2 0 - valueN.getD q.1 0) ^ 2)
        ∘ (revPair timeA.length)) from rfl]
  rw [show (fun p => contributes timeA dt0 dt (revPair timeA.length p))
    = ((contributes timeA dt0 dt) ∘ (revPair timeA.length)) from rfl]
  rw [← List.map_map, ← List.filter_map]
  exact ((pairIdx_reverse_perm timeA.length).filter _).map _

theorem slide_eq_none_of_dt0 (timeA value : List ℚ) (error : Option (List ℚ))
    (dt0opt dtmaxopt : Option ℚ) (h0 : resolveDt0 timeA dt0opt = none) :
    sliding_structFunc_opt timeA value error dt0opt dtmaxopt = none := by
  simp only [sliding_structFunc_opt, h0]

theorem slide_eq_none_of_dtmax (timeA value : List ℚ) (error : Option (List ℚ))
    (dt0opt dtmaxopt : Option ℚ) (dt0 : ℚ)
    (h0 : resolveDt0 timeA dt0opt = some dt0)
    (hm : resolveDtMax timeA dtmaxopt = none) :
    sliding_structFunc_opt timeA value error dt0opt dtmaxopt = none := by
  simp only [sliding_structFunc_opt, h0, hm]

theorem slide_eq_none_of_zero (timeA value : List ℚ) (error : Option (List ℚ))
    (dt0opt dtmaxopt : Option ℚ) (dt0 dtmax : ℚ)
    (h0 : resolveDt0 timeA dt0opt = some dt0)
    (hm : resolveDtMax timeA dtmaxopt = some dtmax)
    (hz : dt0 = 0) :
    sliding_structFunc_opt timeA value error dt0opt dtmaxopt = none := by
  simp only [sliding_structFunc_opt, h0, hm, if_pos hz]

theorem slide_eq_some (timeA value : List ℚ) (error : Option (List ℚ))
    (dt0opt dtmaxopt : Option ℚ) (dt0 dtmax : ℚ) (bins : List (List ℚ))
    (h0 : resolveDt0 timeA dt0opt = some dt0)
    (hm : resolveDtMax timeA dtmaxopt = some dtmax)
    (hz : ¬dt0 = 0)
    (hb : optionMapList (fun dt => diffsAt timeA (value.map (fun x => x / npMean value)) dt0 dt)
        (npArange (dtmax + dt0) dt0) = some bins) :
    sliding_structFunc_opt timeA value error dt0opt dtmaxopt
      = some ⟨npArange (dtmax + dt0) dt0, bins,
          error.map (fun e => npMean (e.map (fun x =>
            x / npMean (value.map (fun y => y / npMean value)))))⟩ := by
  simp only [sliding_structFunc_opt, h0, hm, if_neg hz, hb]

theorem returnedArrays_map_eq (T : List ℚ) (f g : ℚ → List ℚ) (A : Option ℚ)
    (h : ∀ dt, List.Perm (f dt) (g dt)) :
    returnedArrays ⟨T, T.map f, A⟩ = returnedArrays ⟨T, T.map g, A⟩ := by
  have hs : sqrtD1 ⟨T, T.map f, A⟩ = sqrtD1 ⟨T, T.map g, A⟩ := by
    simp only [sqrtD1, List.map_map]
    refine List.map_congr_left ?_
    intro dt _
    simp only [Function.comp_apply]
    rw [Dval_perm (h dt)]
  have hsig : sigmaD1 ⟨T, T.map f, A⟩ = sigmaD1 ⟨T, T.map g, A⟩ := by
    simp only [sigmaD1]
    cases A with
    | none => rfl
    | some a =>
      simp only [Option.map_some', Option.some.injEq, List.map_map]
      refine List.map_congr_left ?_
      intro dt _
      simp only [Function.comp_apply]
      rw [Dval_perm (h dt), (h dt).length_eq]
  simp only [returnedArrays, hs, hsig]

theorem ave_error_reverse (value : List ℚ) (error : Option (List ℚ)) :
    (error.map List.reverse).map (fun e => npMean (e.map (fun x =>
        x / npMean (value.reverse.map (fun y => y / npMean value.reverse)))))
      = error.map (fun e => npMean (e.map (fun x =>
        x / npMean (value.map (fun y => y / npMean value))))) := by
  have hvN : value.reverse.map (fun y => y / npMean value.reverse)
      = (value.map (fun y => y / npMean value)).reverse := by
    rw [npMean_reverse, List.map_reverse]
  have hmean : npMean (value.reverse.map (fun y => y / npMean value.reverse))
      = npMean (value.map (fun y => y / npMean value)) := by rw [hvN, npMean_reverse]
  cases error with
  | none => simp only [Option.map_none']
  | some e =>
    simp only [Option.map_some', Option.some.injEq, hmean]
    rw [List.map_reverse, npMean_reverse]

/-- C9: reversing the order of the `time`, `value` and `error` arrays
(keeping each sample's pairing intact) changes nothing the caller can see:
the returned lag grid, the `sqrtD1` array and the `sigmaD1` array are
identical, because pair enumeration is unordered — the per-bin `diffs`
lists come out as permutations of each other, and only their emptiness,
mean and length are ever used. -/
theorem claim_C9_reversal_symmetry (timeA value : List ℚ) (error : Option (List ℚ))
    (dt0opt dtmaxopt : Option ℚ)
    (hlen : value.length = timeA.length)
    (herr : ∀ e, error = some e → e.length = timeA.length) :
    (sliding_structFunc_opt timeA.reverse value.reverse (error.map List.reverse)
        dt0opt dtmaxopt).map returnedArrays
      = (sliding_structFunc_opt timeA value error dt0opt dtmaxopt).map returnedArrays := by
  have hvN : value.reverse.map (fun x => x / npMean value.reverse)
      = (value.map (fun x => x / npMean value)).reverse := by
    rw [npMean_reverse, List.map_reverse]
  have hlenN : (value.map (fun x => x / npMean value)).length = timeA.length := by
    rw [List.length_map]
    exact hlen
  cases hd0 : resolveDt0 timeA dt0opt with
  | none =>
    rw [slide_eq_none_of_dt0 _ _ _ _ _ (by rw [resolveDt0_reverse]; exact hd0),
      slide_eq_none_of_dt0 _ _ _ _ _ hd0]
  | some dt0 =>
    cases hdm : resolveDtMax timeA dtmaxopt with
    | none =>
      rw [slide_eq_none_of_dtmax _ _ _ _ _ dt0 (by rw [resolveDt0_reverse]; exact hd0)
          (by rw [resolveDtMax_reverse]; exact hdm),
        slide_eq_none_of_dtmax _ _ _ _ _ dt0 hd0 hdm]
    | some dtmax =>
      by_cases hz : dt0 = 0
      · rw [slide_eq_none_of_zero _ _ _ _ _ dt0 dtmax (by rw [resolveDt0_reverse]; exact hd0)
            (by rw [resolveDtMax_reverse]; exact hdm) hz,
          slide_eq_none_of_zero _ _ _ _ _ dt0 dtmax hd0 hdm hz]
      · have hA : optionMapList
            (fun dt => diffsAt timeA (value.map (fun x => x / npMean value)) dt0 dt)
            (npArange (dtmax + dt0) dt0)
            = some ((npArange (dtmax + dt0) dt0).map
                (fun dt => diffsList timeA (value.map (fun x => x / npMean value)) dt0 dt)) :=
          optionMapList_some_map (fun dt _ => diffsAt_eq_some dt0 dt (le_of_eq hlenN.symm))
        have hA' : optionMapList
            (fun dt => diffsAt timeA.reverse
              (value.reverse.map (fun x => x / npMean value.reverse)) dt0 dt)
            (npArange (dtmax + dt0) dt0)
            = some ((npArange (dtmax + dt0) dt0).map
                (fun dt => diffsList timeA.reverse
                  ((value.map (fun x => x / npMean value)).reverse) dt0 dt)) := by
          rw [hvN]
          exact optionMapList_some_map (fun dt _ => diffsAt_eq_some dt0 dt
            (by rw [List.length_reverse, List.length_reverse, hlenN]))
        rw [slide_eq_some _ _ _ _ _ _ _ _ (by rw [resolveDt0_reverse]; exact hd0)
            (by rw [resolveDtMax_reverse]; exact hdm) hz hA',
          slide_eq_some _ _ _ _ _ _ _ _ hd0 hdm hz hA]
        rw [ave_error_reverse value error]
        simp only [Option.map_some']
        exact congrArg some (returnedArrays_map_eq _ _ _ _
          (fun dt => diffsList_reverse_perm timeA _ dt0 dt hlenN))

/-- Witness for C9 at `time=[0,1,2]`, `value=[1,2,4]`, `error=[1,2,3]` with
`windowWidth=1`, `maxLag=2`. -/
theorem claim_C9_witness :
    ([1, 2, 4] : List ℚ).length = ([0, 1, 2] : List ℚ).length ∧
    (sliding_structFunc_opt ([0, 1, 2] : List ℚ).reverse ([1, 2, 4] : List ℚ).reverse
        ((some [1, 2, 3]).map List.reverse) (some 1) (some 2)).map returnedArrays
      = (sliding_structFunc_opt [0, 1, 2] [1, 2, 4] (some [1, 2, 3])
          (some 1) (some 2)).map returnedArrays :=
  ⟨by simp,
   claim_C9_reversal_symmetry [0, 1, 2] [1, 2, 4] (some [1, 2, 3]) (some 1) (some 2)
     (by simp) (by intro e he; cases he; simp)⟩

theorem structFunc_taus_01 : structFunc_taus [0, 1] = [1] := by
  have h : structFunc_taus [0, 1] = [(1 : ℚ) - 0] := rfl
  rw [h]
  norm_num

theorem structFunc_diff2_01 :
    structFunc_diff2 [0, 1] [0 / npMean [0, 2], 2 / npMean [0, 2]] = [4] := by
  have h : structFunc_diff2 [0, 1] [0 / npMean [0, 2], 2 / npMean [0, 2]]
      = [((2 : ℚ) / npMean [0, 2] - 0 / npMean [0, 2]) ^ 2] := rfl
  rw [h]
  norm_num [npMean]

theorem edges65_length : edges65.length = 65 := by
  simp [edges65, NumberofBins]

theorem edges65_getD0 : edges65.getD 0 0 = 0 := by
  rw [edges65, List.getD_eq_getElem?_getD, List.getElem?_map,
    List.getElem?_range (by norm_num [NumberofBins])]
  norm_num

theorem edges65_getD1 : edges65.getD 1 0 = 1/8 := by
  rw [edges65, List.getD_eq_getElem?_getD, List.getElem?_map,
    List.getElem?_range (by norm_num [NumberofBins])]
  norm_num

theorem edges65_getD_last : edges65.getD (edges65.length - 1) 0 = 8 := by
  rw [edges65_length]
  rw [edges65, List.getD_eq_getElem?_getD, List.getElem?_map,
    List.getElem?_range (by norm_num [NumberofBins])]
  norm_num

theorem binnumber_edges65_one : binnumber edges65 1 = 9 := by
  have hcount : edges65.countP (fun e => decide (e ≤ 1)) = 9 := by
    rw [edges65, List.countP_map, List.countP_eq_length_filter]
    rw [List.filter_congr (q := fun k : ℕ => decide (k ≤ 8)) ?_]
    · rw [← List.countP_eq_length_filter]
      show (List.range 65).countP (fun k : ℕ => decide (k ≤ 8)) = 9
      decide
    · intro a _
      simp only [Function.comp_apply, decide_eq_decide]
      rw [div_le_one (by norm_num : (0:ℚ) < 64)]
      constructor
      · intro hle
        have ha : (a : ℚ) ≤ 8 := by linarith
        exact_mod_cast ha
      · intro hle
        have ha : (a : ℚ) ≤ 8 := by exact_mod_cast hle
        linarith
  rw [binnumber]
  simp only [edges65_getD_last, hcount]
  norm_num

theorem structFunc_eval : structFunc [0, 1] [0, 2] [1, 1] edges65 = some exampleBinned := by
  rw [structFunc]
  rw [if_neg (by norm_num), if_neg (by norm_num),
    if_neg (by rw [edges65_length]; norm_num [NumberofBins])]
  simp only [structFunc_taus_01, structFunc_diff2_01, List.map_cons, List.map_nil,
    binnumber_edges65_one, List.zip_cons_cons, List.zip_nil_right, edges65_getD0,
    edges65_getD1, edges65_length, exampleBinned, Option.some.injEq,
    show (65 : ℕ) - 1 = 64 from by norm_num, NumberofBins]
  rw [BinnedSF.mk.injEq]
  refine ⟨?_, ?_, ?_, ?_⟩
  · refine List.map_congr_left ?_
    intro e _
    norm_num
  · refine List.map_congr_left ?_
    intro k _
    by_cases h8 : k = 8
    · subst h8
      have hsel : (List.map (fun q => q.2)
          (List.filter (fun q => q.1 == 8 + 1) [((9 : ℕ), (4 : ℚ))])) = [4] := rfl
      rw [hsel]
      norm_num [npMean]
    · have hbeq : ((9 : ℕ) == k + 1) = false := by
        simp only [beq_eq_false_iff_ne]
        omega
      simp [List.filter_cons, hbeq, h8]
  · refine List.map_congr_left ?_
    intro k _
    by_cases h9 : k = 9
    · subst h9
      have hsel : (List.filter (fun b => b == (9 : ℕ)) [9]) = [9] := rfl
      rw [hsel]
      norm_num
    · have hbeq : ((9 : ℕ) == k) = false := by
        simp only [beq_eq_false_iff_ne]
        omega
      simp [List.filter_cons, hbeq, h9]
  · norm_num [npMean]

theorem maskFilter_length_le {α : Type} :
    ∀ (m : List Bool) (l : List α), (maskFilter m l).length ≤ l.length
  | [], l => by simp [maskFilter]
  | b :: bs, [] => by simp [maskFilter]
  | b :: bs, x :: xs => by
    rw [maskFilter]
    cases b with
    | true =>
      rw [if_pos rfl]
      simpa using maskFilter_length_le bs xs
    | false =>
      rw [if_neg (by simp)]
      exact le_trans (maskFilter_length_le bs xs) (Nat.le_succ _)

theorem maskFilter_length_congr {α β : Type} :
    ∀ (m : List Bool) (l₁ : List α) (l₂ : List β), l₁.length = l₂.length →
      (maskFilter m l₁).length = (maskFilter m l₂).length
  | [], l₁, l₂, _ => by simp [maskFilter]
  | b :: bs, [], l₂, h => by
    have : l₂ = [] := List.length_eq_zero.mp h.symm
    subst this
    rfl
  | b :: bs, x :: xs, [], h => by simp at h
  | b :: bs, x :: xs, y :: ys, h => by
    have hxy : xs.length = ys.length := by simpa using h
    rw [maskFilter, maskFilter]
    cases b with
    | true =>
      rw [if_pos rfl, if_pos rfl]
      simp [maskFilter_length_congr bs xs ys hxy]
    | false =>
      rw [if_neg (by simp), if_neg (by simp)]
      exact maskFilter_length_congr bs xs ys hxy

theorem maskFilter_map_map {α β : Type} (p : α → Bool) (f : α → β) :
    ∀ (l : List α), maskFilter (l.map p) (l.map f) = (l.filter p).map f
  | [] => rfl
  | a :: as => by
    rw [List.map_cons, List.map_cons, maskFilter, List.filter_cons]
    cases hpa : p a with
    | true =>
      rw [if_pos rfl, if_pos rfl, List.map_cons, maskFilter_map_map p f as]
    | false =>
      rw [if_neg (by simp), if_neg (by simp), maskFilter_map_map p f as]

theorem structFunc_some_elim {timeA value error nbins : List ℚ} {b : BinnedSF}
    (h : structFunc timeA value error nbins = some b) :
    b.centers.length = NumberofBins ∧ b.Dmeans.length = NumberofBins ∧
    b.counts.length = NumberofBins := by
  rw [structFunc] at h
  by_cases h1 : timeA.length < 2
  · rw [if_pos h1] at h; cases h
  rw [if_neg h1] at h
  by_cases h2 : value.length < timeA.length
  · rw [if_pos h2] at h; cases h
  rw [if_neg h2] at h
  by_cases h3 : nbins.length ≠ NumberofBins + 1
  · rw [if_pos h3] at h; cases h
  rw [if_neg h3] at h
  have h3' : nbins.length = NumberofBins + 1 := not_ne_iff.mp h3
  cases h
  refine ⟨?_, ?_, ?_⟩
  · show (nbins.tail.map _).length = NumberofBins
    rw [List.length_map, List.length_tail, h3']
    omega
  · show ((List.range (nbins.length - 1)).map _).length = NumberofBins
    rw [List.length_map, List.length_range, h3']
    omega
  · show ((List.range NumberofBins).map _).length = NumberofBins
    rw [List.length_map, List.length_range]

theorem exampleBinned_centers_len : exampleBinned.centers.length = 64 := by
  show (edges65.tail.map _).length = 64
  rw [List.length_map, List.length_tail, edges65_length]

theorem exampleBinned_Dmeans_len : exampleBinned.Dmeans.length = 64 := by
  show ((List.range 64).map _).length = 64
  rw [List.length_map, List.length_range]

theorem exampleBinned_ret_centers_length :
    (structFunc_ret_centers exampleBinned).length = 1 := by
  rw [structFunc_ret_centers,
    maskFilter_length_congr (keepMask exampleBinned) exampleBinned.centers exampleBinned.Dmeans
      (by rw [exampleBinned_centers_len, exampleBinned_Dmeans_len]),
    keepMask]
  nth_rewrite 2 [show exampleBinned.Dmeans = exampleBinned.Dmeans.map id from
    (List.map_id _).symm]
  rw [maskFilter_map_map Option.isSome id exampleBinned.Dmeans, List.map_id]
  show (((List.range 64).map
      (fun k => if k = 8 then some (4:ℚ) else none)).filter Option.isSome).length = 1
  rw [List.filter_map, List.length_map]
  rw [List.filter_congr (q := fun k : ℕ => k == 8) ?_]
  · decide
  · intro k _
    by_cases hk : k = 8 <;> simp [hk, Function.comp]

/-- C2: the binned variant computes `sigmaD` as
`np.sqrt(8*aveerror*aveerror*D1/(numberPerBin+1))`, but its `numberPerBin`
array is built by counting `binnumber == index` with a 0-based `index`
although scipy bin numbers are 1-based.  At the failing input
(`time=[0,1]`, `value=[0,2]`, `error=[1,1]`, 65 linspace edges) the single
pair's lag `1` lies in 0-based bin 8 (scipy binnumber 9): the bin-8 mean is
`4` with one same-bin lag, yet the code records `numberPerBin[8] = 0`, so
its `sigmaD` for bin 8 is `√32` (denominator `0+1`) while the claimed
same-bin count gives `√16 = 4` (denominator `1+1`) — and `√32 ≠ 4`. -/
theorem claim_C2_binnumber_offset :
    (structFunc [0, 1] [0, 2] [1, 1] edges65).map
        (fun b => (b.ave_err, b.Dmeans.get? 8, b.counts.get? 8))
      = some (1, some (some 4), some 0) ∧
    sameBinCount edges65 (structFunc_taus [0, 1]) 8 = 1 ∧
    sigmaDformula 1 4 0 = Real.sqrt 32 ∧
    sigmaDformula 1 4 1 = 4 ∧
    Real.sqrt 32 ≠ 4 := by
  refine ⟨?_, ?_, ?_, ?_, ?_⟩
  · rw [structFunc_eval, Option.map_some']
    have h2 : exampleBinned.Dmeans.get? 8 = some (some 4) := by
      show (((List.range 64).map (fun k => if k = 8 then some (4:ℚ) else none))).get? 8
          = some (some 4)
      rw [List.get?_map, List.get?_range (by norm_num)]
      norm_num
    have h3 : exampleBinned.counts.get? 8 = some 0 := by
      show (((List.range 64).map (fun k => if k = 9 then 1 else 0))).get? 8 = some 0
      rw [List.get?_map, List.get?_range (by norm_num)]
      norm_num
    rw [h2, h3, show exampleBinned.ave_err = 1 from rfl]
  · rw [sameBinCount, structFunc_taus_01]
    simp [List.filter_cons, binnumber_edges65_one]
  · rw [sigmaDformula]
    norm_num
  · rw [sigmaDformula]
    rw [show (8 : ℝ) * ((1 : ℚ) : ℝ) * ((1 : ℚ) : ℝ) * ((4 : ℚ) : ℝ) / (((1 : ℕ) : ℝ) + 1)
        = (4 : ℝ) ^ 2 from by push_cast; norm_num]
    exact Real.sqrt_sq (by norm_num)
  · intro hcontra
    have h2 : (32 : ℝ) = 4 ^ 2 := by
      rw [← Real.sq_sqrt (by norm_num : (0:ℝ) ≤ 32), hcontra]
    norm_num at h2

/-- C10: the binned variant filters its return arrays by
`condition = ~np.isnan(D1)`: the three returned sequences always have equal
length, that length is at most the number of requested bins (and strictly
smaller whenever a bin is empty — at the concrete sparse input only 1 of
the 64 bins survives), and the returned `√D` sequence contains no NaN. -/
theorem claim_C10_nan_bin_filtering (timeA value error nbins : List ℚ) (b : BinnedSF)
    (h : structFunc timeA value error nbins = some b) :
    ((structFunc_ret_centers b).length = (structFunc_ret_sqrtD b).length ∧
     (structFunc_ret_sqrtD b).length = (structFunc_ret_sigma b).length) ∧
    (structFunc_ret_centers b).length ≤ NumberofBins ∧
    (∀ x ∈ structFunc_ret_sqrtD b, x.isSome = true) ∧
    (structFunc [0, 1] [0, 2] [1, 1] edges65).map
        (fun b2 => (structFunc_ret_centers b2).length) = some 1 ∧
    1 < NumberofBins := by
  obtain ⟨hc, hd, hk⟩ := structFunc_some_elim h
  have hsq_len : (binned_sqrtD1 b).length = NumberofBins := by
    rw [binned_sqrtD1, List.length_map, hd]
  have hsg_len : (binned_sigmaSQRTD b).length = NumberofBins := by
    rw [binned_sigmaSQRTD, List.length_map, List.length_zip, hd, hk, min_self]
  refine ⟨⟨?_, ?_⟩, ?_, ?_, ?_, ?_⟩
  · rw [structFunc_ret_centers, structFunc_ret_sqrtD]
    exact maskFilter_length_congr _ _ _ (by rw [hc, hsq_len])
  · rw [structFunc_ret_sqrtD, structFunc_ret_sigma]
    exact maskFilter_length_congr _ _ _ (by rw [hsq_len, hsg_len])
  · rw [structFunc_ret_centers]
    calc (maskFilter (keepMask b) b.centers).length
        ≤ b.centers.length := maskFilter_length_le _ _
      _ = NumberofBins := hc
  · intro x hx
    rw [structFunc_ret_sqrtD, keepMask, binned_sqrtD1, maskFilter_map_map] at hx
    obtain ⟨d, hdmem, rfl⟩ := List.mem_map.mp hx
    have hds : d.isSome = true := (List.mem_filter.mp hdmem).2
    cases d with
    | none => simp at hds
    | some v => simp
  · rw [structFunc_eval, Option.map_some', exampleBinned_ret_centers_length]
  · norm_num [NumberofBins]

/-- Witness for C10 at the concrete call
`structFunc([0,1], [0,2], [1,1], linspace(0,8,65))`. -/
theorem claim_C10_witness :
    structFunc [0, 1] [0, 2] [1, 1] edges65 = some exampleBinned ∧
    (((structFunc_ret_centers exampleBinned).length
          = (structFunc_ret_sqrtD exampleBinned).length ∧
      (structFunc_ret_sqrtD exampleBinned).length
          = (structFunc_ret_sigma exampleBinned).length) ∧
     (structFunc_ret_centers exampleBinned).length ≤ NumberofBins ∧
     (∀ x ∈ structFunc_ret_sqrtD exampleBinned, x.isSome = true) ∧
     (structFunc [0, 1] [0, 2] [1, 1] edges65).map
         (fun b2 => (structFunc_ret_centers b2).length) = some 1 ∧
     1 < NumberofBins) :=
  ⟨structFunc_eval,
   claim_C10_nan_bin_filtering [0, 1] [0, 2] [1, 1] edges65 exampleBinned structFunc_eval⟩
